import Mathlib

/-!
# Verification of the cqrs-demo bank-account aggregate

Shallow embedding of the event-sourced bank-account domain:

* `BankAccountCommand`, `BankAccountEvent` — the command and event sum types.
  Their variants and fields are read off the exhaustive `match` arms of
  `BankAccount::handle` / `BankAccount::apply` in `src/domain/aggregate.rs`
  and `BankAccountQuery::update` in `src/queries.rs`.
* `BankAccount.handle`, `BankAccount.apply`, `BankAccount.default` — the
  aggregate state machine from `src/domain/aggregate.rs`.
* `BankAccountQuery.update`, `BankAccountQuery.default` — the projection from
  `src/queries.rs`; `EventEnvelope` keeps the fields the query code touches
  (`aggregate_id`, `sequence`, `payload`).

The Rust code stores balances and amounts as `f64`; the only operations ever
performed on them are `+`, `-` and comparison with `0`, so they are embedded
as exact rationals (`ℚ`).  The domain error produced by `handle`
(`"funds not available".into()`) is embedded as its message string.
-/

/-- Commands of the bank-account aggregate (`BankAccountCommand` in the
source; variants as matched exhaustively in `BankAccount::handle`). -/
inductive BankAccountCommand where
  | OpenAccount (account_id : String)
  | DepositMoney (amount : ℚ)
  | WithdrawMoney (amount : ℚ)
  | WriteCheck (check_number : String) (amount : ℚ)
deriving DecidableEq, Repr

/-- Events of the bank-account aggregate (`BankAccountEvent` in the source;
variants as matched exhaustively in `BankAccount::apply`). -/
inductive BankAccountEvent where
  | AccountOpened (account_id : String)
  | CustomerDepositedMoney (amount : ℚ) (balance : ℚ)
  | CustomerWithdrewCash (amount : ℚ) (balance : ℚ)
  | CustomerWroteCheck (check_number : String) (amount : ℚ) (balance : ℚ)
deriving DecidableEq, Repr

/-- Aggregate state (`struct BankAccount { account_id, balance }`). -/
structure BankAccount where
  account_id : String
  balance : ℚ
deriving DecidableEq, Repr

/-- `impl Default for BankAccount`: empty id, zero balance. -/
def BankAccount.default : BankAccount :=
  { account_id := "", balance := 0 }

/-- `BankAccount::handle` from `src/domain/aggregate.rs` (lines 24-64):
validates a command against the current state and returns the produced
events, or the domain error message. -/
def BankAccount.handle (s : BankAccount) (command : BankAccountCommand) :
    Except String (List BankAccountEvent) :=
  match command with
  | .OpenAccount account_id =>
      .ok [.AccountOpened account_id]
  | .DepositMoney amount =>
      let balance := s.balance + amount
      .ok [.CustomerDepositedMoney amount balance]
  | .WithdrawMoney amount =>
      let balance := s.balance - amount
      if balance < 0 then .error "funds not available"
      else .ok [.CustomerWithdrewCash amount balance]
  | .WriteCheck check_number amount =>
      let balance := s.balance - amount
      if balance < 0 then .error "funds not available"
      else .ok [.CustomerWroteCheck check_number amount balance]

/-- `BankAccount::apply` from `src/domain/aggregate.rs` (lines 66-85):
folds one event into the state (the Rust `&mut self` update is embedded as
a function returning the new state). -/
def BankAccount.apply (s : BankAccount) (event : BankAccountEvent) : BankAccount :=
  match event with
  | .AccountOpened account_id => { s with account_id := account_id }
  | .CustomerDepositedMoney _ balance => { s with balance := balance }
  | .CustomerWithdrewCash _ balance => { s with balance := balance }
  | .CustomerWroteCheck _ _ balance => { s with balance := balance }

/-- One command-execution step as the repository performs it: on `Ok` the
produced events are applied in order; on a domain error no event is
produced and the state is left as it was. -/
def BankAccount.execStep (s : BankAccount) (c : BankAccountCommand) : BankAccount :=
  match s.handle c with
  | .ok evs => evs.foldl BankAccount.apply s
  | .error _ => s

/-- States reachable from the default state by handle-then-apply steps whose
commands all satisfy `P`. -/
inductive BankAccount.ReachableVia (P : BankAccountCommand → Prop) : BankAccount → Prop where
  | init : BankAccount.ReachableVia P BankAccount.default
  | step (s : BankAccount) (c : BankAccountCommand) (evs : List BankAccountEvent) :
      BankAccount.ReachableVia P s → P c → s.handle c = .ok evs →
      BankAccount.ReachableVia P (evs.foldl BankAccount.apply s)

/-- States reachable from the default state by arbitrary handle-then-apply
steps. -/
def BankAccount.Reachable : BankAccount → Prop :=
  BankAccount.ReachableVia (fun _ => True)

/-- `DepositMoney` commands carry a nonnegative amount; no condition on the
other commands. -/
def BankAccountCommand.depositNonneg : BankAccountCommand → Prop
  | .DepositMoney amount => 0 ≤ amount
  | _ => True

/-- Replay: fold an event sequence through `apply` from the default state
(`read_stream` + fold in the repository). -/
def BankAccount.replay (events : List BankAccountEvent) : BankAccount :=
  events.foldl BankAccount.apply BankAccount.default

/-- A second, structurally recursive implementation of replay, folding the
events one at a time from the front. -/
def BankAccount.replayFrom (s : BankAccount) : List BankAccountEvent → BankAccount
  | [] => s
  | e :: es => BankAccount.replayFrom (s.apply e) es

/-- An event envelope as consumed by the query side: the fields of
`cqrs_es::EventEnvelope` that `src/queries.rs` reads. -/
structure EventEnvelope where
  aggregate_id : String
  sequence : Nat
  payload : BankAccountEvent
deriving DecidableEq, Repr

/-- Projection state (`struct BankAccountQuery` in `src/queries.rs`). -/
structure BankAccountQuery where
  account_id : Option String
  balance : ℚ
  written_checks : List String
deriving DecidableEq, Repr

/-- `impl Default for BankAccountQuery`. -/
def BankAccountQuery.default : BankAccountQuery :=
  { account_id := none, balance := 0, written_checks := [] }

/-- `BankAccountQuery::update` from `src/queries.rs` (lines 26-47): folds one
envelope's payload into the projection; `Vec::push` appends at the end. -/
def BankAccountQuery.update (q : BankAccountQuery) (event : EventEnvelope) : BankAccountQuery :=
  match event.payload with
  | .AccountOpened account_id =>
      { q with account_id := some account_id }
  | .CustomerDepositedMoney _ balance =>
      { q with balance := balance }
  | .CustomerWithdrewCash _ balance =>
      { q with balance := balance }
  | .CustomerWroteCheck check_number _ balance =>
      { q with balance := balance, written_checks := q.written_checks ++ [check_number] }

/-! ## Basic lemmas about `handle` -/

theorem BankAccount.handle_open (s : BankAccount) (i : String) :
    s.handle (.OpenAccount i) = .ok [.AccountOpened i] := rfl

theorem BankAccount.handle_deposit (s : BankAccount) (a : ℚ) :
    s.handle (.DepositMoney a) = .ok [.CustomerDepositedMoney a (s.balance + a)] := rfl

/-- Claim C2 (confirmed): for every state and amount, `WithdrawMoney` and
`WriteCheck` return the domain error "funds not available" exactly when
`balance - amount < 0` (an error result carries no events by construction);
in particular, from the default state `WithdrawMoney 200` errors. -/
theorem c2_insufficient_funds (s : BankAccount) (a : ℚ) (n : String) :
    (s.handle (.WithdrawMoney a) = .error "funds not available" ↔ s.balance - a < 0) ∧
    (s.handle (.WriteCheck n a) = .error "funds not available" ↔ s.balance - a < 0) ∧
    BankAccount.default.handle (.WithdrawMoney 200) = .error "funds not available" := by
  refine ⟨?_, ?_, ?_⟩
  · simp only [BankAccount.handle]
    split_ifs with h <;> simp [h]
  · simp only [BankAccount.handle]
    split_ifs with h <;> simp [h]
  · norm_num [BankAccount.handle, BankAccount.default]

/-- Claim C6 (confirmed): from a state with balance 200 (the prior deposit
event applied), `WriteCheck "1170" 100` yields exactly
`CustomerWroteCheck "1170" 100 100`, and after dispatching that event the
projection's written-checks list contains "1170". -/
theorem c6_write_check :
    (BankAccount.default.apply (.CustomerDepositedMoney 200 200)).handle
        (.WriteCheck "1170" 100) = .ok [.CustomerWroteCheck "1170" 100 100] ∧
    "1170" ∈ (BankAccountQuery.default.update
        { aggregate_id := "acct", sequence := 1,
          payload := .CustomerWroteCheck "1170" 100 100 }).written_checks := by
  constructor
  · norm_num [BankAccount.handle, BankAccount.apply, BankAccount.default]
  · simp [BankAccountQuery.update, BankAccountQuery.default]

/-- Claim C7 (confirmed): every successful `handle` result consists of
exactly one event. -/
theorem c7_single_event (s : BankAccount) (c : BankAccountCommand)
    (evs : List BankAccountEvent) (h : s.handle c = .ok evs) : evs.length = 1 := by
  cases c with
  | OpenAccount i =>
      simp only [BankAccount.handle, Except.ok.injEq] at h
      subst h; rfl
  | DepositMoney a =>
      simp only [BankAccount.handle, Except.ok.injEq] at h
      subst h; rfl
  | WithdrawMoney a =>
      simp only [BankAccount.handle] at h
      split at h
      · exact absurd h (by simp)
      · simp only [Except.ok.injEq] at h
        subst h; rfl
  | WriteCheck n a =>
      simp only [BankAccount.handle] at h
      split at h
      · exact absurd h (by simp)
      · simp only [Except.ok.injEq] at h
        subst h; rfl

theorem c7_single_event_witness :
    ([BankAccountEvent.CustomerDepositedMoney 200 (BankAccount.default.balance + 200)]).length = 1 :=
  c7_single_event BankAccount.default (.DepositMoney 200) _ rfl

theorem BankAccount.foldl_eq_replayFrom (events : List BankAccountEvent) :
    ∀ s : BankAccount, events.foldl BankAccount.apply s = BankAccount.replayFrom s events := by
  induction events with
  | nil => intro s; rfl
  | cons e es ih => intro s; simpa [BankAccount.replayFrom] using ih (s.apply e)

/-- Claim C8 (confirmed): replay is deterministic — `apply` is a pure
function of prior state and event, so folding the same event sequence from
the default state in two independent runs (here: two independent
implementations of the fold) yields identical final states. -/
theorem c8_replay_deterministic (events : List BankAccountEvent) :
    BankAccount.replay events = BankAccount.replayFrom BankAccount.default events :=
  BankAccount.foldl_eq_replayFrom events BankAccount.default

/-- Claim C9 (confirmed): `apply` takes the new balance solely from the
event payload — whatever the prior state's balance was, the resulting
balance equals the event's `balance` field, and the event's `amount` field
is ignored entirely. -/
theorem c9_apply_balance_from_event (s : BankAccount) (amt amt' bal : ℚ) (n : String) :
    (s.apply (.CustomerDepositedMoney amt bal)).balance = bal ∧
    (s.apply (.CustomerWithdrewCash amt bal)).balance = bal ∧
    (s.apply (.CustomerWroteCheck n amt bal)).balance = bal ∧
    s.apply (.CustomerDepositedMoney amt bal) = s.apply (.CustomerDepositedMoney amt' bal) ∧
    s.apply (.CustomerWithdrewCash amt bal) = s.apply (.CustomerWithdrewCash amt' bal) ∧
    s.apply (.CustomerWroteCheck n amt bal) = s.apply (.CustomerWroteCheck n amt' bal) :=
  ⟨rfl, rfl, rfl, rfl, rfl, rfl⟩

/-- Claim C10 (confirmed): `handle` never rejects `OpenAccount` (even when
an id is already set) or `DepositMoney` (even for negative amounts); every
error result comes from a `WithdrawMoney` or `WriteCheck` command. -/
theorem c10_open_deposit_always_ok (s : BankAccount) (i : String) (a : ℚ)
    (c : BankAccountCommand) (e : String) (h : s.handle c = .error e) :
    s.handle (.OpenAccount i) = .ok [.AccountOpened i] ∧
    s.handle (.DepositMoney a) = .ok [.CustomerDepositedMoney a (s.balance + a)] ∧
    ((∃ x, c = .WithdrawMoney x) ∨ ∃ n x, c = .WriteCheck n x) := by
  refine ⟨rfl, rfl, ?_⟩
  cases c with
  | OpenAccount j => exact absurd h (by simp [BankAccount.handle])
  | DepositMoney b => exact absurd h (by simp [BankAccount.handle])
  | WithdrawMoney x => exact Or.inl ⟨x, rfl⟩
  | WriteCheck n x => exact Or.inr ⟨n, x, rfl⟩

theorem c10_open_deposit_always_ok_witness :
    BankAccount.default.handle (.OpenAccount "x") = .ok [.AccountOpened "x"] :=
  (c10_open_deposit_always_ok BankAccount.default "x" (-1) (.WithdrawMoney 200)
    "funds not available" (by norm_num [BankAccount.handle, BankAccount.default])).1

/-- Claim C1, counterexample: a deposit of -1 from the default state is a
handle-then-apply step (handle accepts it and produces an event), and the
resulting reachable state has balance -1 < 0 — refuting both "every
reachable state has balance ≥ 0" and "every command whose resulting balance
would be negative produces no events". -/
theorem c1_counterexample :
    BankAccount.Reachable { account_id := "", balance := -1 } ∧
    ¬ (0 : ℚ) ≤ ({ account_id := "", balance := -1 } : BankAccount).balance ∧
    BankAccount.default.handle (.DepositMoney (-1)) =
      .ok [.CustomerDepositedMoney (-1) (-1)] := by
  have hh : BankAccount.default.handle (.DepositMoney (-1)) =
      .ok [.CustomerDepositedMoney (-1) (-1)] := by
    norm_num [BankAccount.handle, BankAccount.default]
  refine ⟨?_, by norm_num, hh⟩
  exact BankAccount.ReachableVia.step BankAccount.default (.DepositMoney (-1))
    [.CustomerDepositedMoney (-1) (-1)] BankAccount.ReachableVia.init trivial hh

/-- Claim C1 (amended, proved): for every state reachable from the default
state by handle-then-apply steps in which every `DepositMoney` command
carries a nonnegative amount, the balance is nonnegative; and for every
`WithdrawMoney` or `WriteCheck` command whose resulting balance would be
negative, `handle` returns the domain error (hence no events) and the
execution step leaves the state unchanged. -/
theorem c1_balance_nonneg (s : BankAccount)
    (h : BankAccount.ReachableVia BankAccountCommand.depositNonneg s) :
    0 ≤ s.balance ∧
    ∀ (a : ℚ) (n : String), s.balance - a < 0 →
      s.handle (.WithdrawMoney a) = .error "funds not available" ∧
      s.execStep (.WithdrawMoney a) = s ∧
      s.handle (.WriteCheck n a) = .error "funds not available" ∧
      s.execStep (.WriteCheck n a) = s := by
  constructor
  · induction h with
    | init => norm_num [BankAccount.default]
    | step s c evs hr hP hok ih =>
        cases c with
        | OpenAccount i =>
            simp only [BankAccount.handle, Except.ok.injEq] at hok
            subst hok
            simpa [BankAccount.apply] using ih
        | DepositMoney a =>
            simp only [BankAccount.handle, Except.ok.injEq] at hok
            subst hok
            simp only [BankAccountCommand.depositNonneg] at hP
            simpa [BankAccount.apply] using add_nonneg ih hP
        | WithdrawMoney a =>
            simp only [BankAccount.handle] at hok
            split at hok
            · exact absurd hok (by simp)
            · next hge =>
                simp only [Except.ok.injEq] at hok
                subst hok
                simpa [BankAccount.apply] using not_lt.mp hge
        | WriteCheck n a =>
            simp only [BankAccount.handle] at hok
            split at hok
            · exact absurd hok (by simp)
            · next hge =>
                simp only [Except.ok.injEq] at hok
                subst hok
                simpa [BankAccount.apply] using not_lt.mp hge
  · intro a n hlt
    have hw : s.handle (.WithdrawMoney a) = .error "funds not available" := by
      simp only [BankAccount.handle]
      rw [if_pos hlt]
    have hc : s.handle (.WriteCheck n a) = .error "funds not available" := by
      simp only [BankAccount.handle]
      rw [if_pos hlt]
    exact ⟨hw, by simp [BankAccount.execStep, hw], hc, by simp [BankAccount.execStep, hc]⟩

theorem c1_balance_nonneg_witness :
    0 ≤ BankAccount.default.balance ∧
    BankAccount.default.handle (.WithdrawMoney 200) = .error "funds not available" ∧
    BankAccount.default.execStep (.WithdrawMoney 200) = BankAccount.default :=
  ⟨(c1_balance_nonneg BankAccount.default BankAccount.ReachableVia.init).1,
   ((c1_balance_nonneg BankAccount.default BankAccount.ReachableVia.init).2 200 "1170"
      (by norm_num [BankAccount.default])).1,
   ((c1_balance_nonneg BankAccount.default BankAccount.ReachableVia.init).2 200 "1170"
      (by norm_num [BankAccount.default])).2.1⟩

/-- Claim C3, counterexample: `BankAccountQuery` keeps no sequence cursor,
and delivering the very same `CustomerWroteCheck` envelope twice appends the
check number twice — the folded state differs from delivering it once. -/
theorem c3_counterexample :
    BankAccountQuery.update (BankAccountQuery.update BankAccountQuery.default
        { aggregate_id := "A", sequence := 1, payload := .CustomerWroteCheck "1170" 100 100 })
        { aggregate_id := "A", sequence := 1, payload := .CustomerWroteCheck "1170" 100 100 } ≠
      BankAccountQuery.update BankAccountQuery.default
        { aggregate_id := "A", sequence := 1, payload := .CustomerWroteCheck "1170" 100 100 } := by
  simp [BankAccountQuery.update, BankAccountQuery.default]

/-- Claim C3 (amended, proved): `update` tracks no last-folded sequence
number and skips nothing; redelivering an envelope is idempotent exactly for
the payload variants that assign absolute values (`AccountOpened`,
`CustomerDepositedMoney`, `CustomerWithdrewCash`), while a redelivered
`CustomerWroteCheck` appends its check number again. -/
theorem c3_update_idem (q : BankAccountQuery) (e : EventEnvelope)
    (h : ∀ n a b, e.payload ≠ .CustomerWroteCheck n a b) :
    (q.update e).update e = q.update e := by
  cases hp : e.payload with
  | AccountOpened i => simp [BankAccountQuery.update, hp]
  | CustomerDepositedMoney a b => simp [BankAccountQuery.update, hp]
  | CustomerWithdrewCash a b => simp [BankAccountQuery.update, hp]
  | CustomerWroteCheck n a b => exact absurd hp (h n a b)

theorem c3_update_idem_witness :
    (BankAccountQuery.default.update
        { aggregate_id := "A", sequence := 1,
          payload := .CustomerDepositedMoney 200 200 }).update
        { aggregate_id := "A", sequence := 1,
          payload := .CustomerDepositedMoney 200 200 } =
      BankAccountQuery.default.update
        { aggregate_id := "A", sequence := 1,
          payload := .CustomerDepositedMoney 200 200 } :=
  c3_update_idem _ _ (by simp)

/-- Claim C4, counterexample: after opening with id "a" (a reachable state
whose `account_id` is set), `handle` still accepts `OpenAccount "b"` and
applying the produced `AccountOpened "b"` event overwrites the id — it is
not immutable once assigned. -/
theorem c4_counterexample :
    BankAccount.Reachable (BankAccount.default.apply (.AccountOpened "a")) ∧
    (BankAccount.default.apply (.AccountOpened "a")).account_id = "a" ∧
    BankAccount.handle (BankAccount.default.apply (.AccountOpened "a")) (.OpenAccount "b") =
      .ok [.AccountOpened "b"] ∧
    ((BankAccount.default.apply (.AccountOpened "a")).apply (.AccountOpened "b")).account_id ≠
      (BankAccount.default.apply (.AccountOpened "a")).account_id := by
  refine ⟨?_, rfl, rfl, ?_⟩
  · exact BankAccount.ReachableVia.step BankAccount.default (.OpenAccount "a")
      [.AccountOpened "a"] BankAccount.ReachableVia.init trivial rfl
  · simp [BankAccount.apply, BankAccount.default]

/-- Claim C4 (amended, proved): only `AccountOpened` events touch
`account_id` — every other event leaves it unchanged — but each applied
`AccountOpened` (re)assigns it to the event's id, and nothing prevents a
later `AccountOpened` from being produced and applied. -/
theorem c4_account_id (s : BankAccount) (e : BankAccountEvent)
    (h : ∀ i, e ≠ .AccountOpened i) :
    (s.apply e).account_id = s.account_id ∧
    ∀ i, (s.apply (.AccountOpened i)).account_id = i := by
  refine ⟨?_, fun i => rfl⟩
  cases e with
  | AccountOpened i => exact absurd rfl (h i)
  | CustomerDepositedMoney a b => rfl
  | CustomerWithdrewCash a b => rfl
  | CustomerWroteCheck n a b => rfl

theorem c4_account_id_witness :
    (BankAccount.default.apply (.CustomerDepositedMoney 200 200)).account_id =
      BankAccount.default.account_id :=
  (c4_account_id BankAccount.default (.CustomerDepositedMoney 200 200) (by simp)).1

/-- Claim C5, counterexample: a deposit of 0 succeeds and yields the event,
but the balance does not increase — "the balance increases" fails for
non-positive amounts. -/
theorem c5_counterexample :
    BankAccount.default.handle (.DepositMoney 0) = .ok [.CustomerDepositedMoney 0 0] ∧
    ¬ BankAccount.default.balance < (BankAccount.default.execStep (.DepositMoney 0)).balance := by
  constructor
  · norm_num [BankAccount.handle, BankAccount.default]
  · norm_num [BankAccount.execStep, BankAccount.handle, BankAccount.apply, BankAccount.default]

/-- Claim C5 (amended, proved): for every state and every amount — positive
or not — `DepositMoney` succeeds with exactly one
`CustomerDepositedMoney {amount, balance + amount}` event; the balance
strictly increases when the amount is positive, is unchanged for amount 0,
and strictly decreases for a negative amount; and the two concrete deposit
scenarios hold (0 → 200, then 200 → 400). -/
theorem c5_deposit (s : BankAccount) (a : ℚ) :
    s.handle (.DepositMoney a) = .ok [.CustomerDepositedMoney a (s.balance + a)] ∧
    (0 < a → s.balance < (s.execStep (.DepositMoney a)).balance) ∧
    (a = 0 → (s.execStep (.DepositMoney a)).balance = s.balance) ∧
    (a < 0 → (s.execStep (.DepositMoney a)).balance < s.balance) ∧
    BankAccount.default.handle (.DepositMoney 200) = .ok [.CustomerDepositedMoney 200 200] ∧
    (BankAccount.default.apply (.CustomerDepositedMoney 200 200)).handle (.DepositMoney 200) =
      .ok [.CustomerDepositedMoney 200 400] := by
  refine ⟨rfl, ?_, ?_, ?_, ?_, ?_⟩
  · intro h
    have hlt : s.balance < s.balance + a := by linarith
    simpa [BankAccount.execStep, BankAccount.handle, BankAccount.apply] using hlt
  · intro h
    subst h
    simp [BankAccount.execStep, BankAccount.handle, BankAccount.apply]
  · intro h
    have hlt : s.balance + a < s.balance := by linarith
    simpa [BankAccount.execStep, BankAccount.handle, BankAccount.apply] using hlt
  · norm_num [BankAccount.handle, BankAccount.default]
  · norm_num [BankAccount.handle, BankAccount.apply, BankAccount.default]

theorem c5_deposit_witness :
    BankAccount.default.balance < (BankAccount.default.execStep (.DepositMoney 200)).balance ∧
    (BankAccount.default.execStep (.DepositMoney 0)).balance = BankAccount.default.balance ∧
    (BankAccount.default.execStep (.DepositMoney (-1))).balance < BankAccount.default.balance :=
  ⟨(c5_deposit BankAccount.default 200).2.1 (by norm_num),
   (c5_deposit BankAccount.default 0).2.2.1 rfl,
   (c5_deposit BankAccount.default (-1)).2.2.2.1 (by norm_num)⟩
